import Mathlib

/-!
Shallow embedding of the openrouter-vision image-analysis pipeline:
configuration (AppConfig.ts), the domain error hierarchy (DomainErrors.ts),
the Sharp-based image processor (ImageProcessor), the OpenRouter remote
client (OpenRouterService), the orchestrating use case
(AnalyzeImageUseCase) and the boundary error mapper
(ImageAnalysisController.handleError).

External effects are modelled as explicit parameters: the file system and
the two HTTP transports are functions supplied to the embedded operations,
and the Sharp decoder is modelled by an optional metadata record attached
to each byte buffer (`none` models a decode failure, i.e. `sharp(...)`
throwing).  Machine integers in the source are JavaScript numbers used
only as sizes, dimensions and counters, so they are embedded as `Nat`.
-/

namespace Vision

/-- Configuration for the OpenRouter remote endpoint, `AppConfig.openRouter`. -/
structure OpenRouterConfig where
  apiKey : String
  baseUrl : String
  defaultModel : String
  timeout : Nat
  maxTokens : Nat
  httpReferer : String
deriving Repr, DecidableEq

/-- Image policy configuration, `AppConfig.image`. -/
structure ImageConfig where
  maxSizeBytes : Nat
  supportedFormats : List String
  quality : Nat
deriving Repr, DecidableEq

/-- Application configuration, the parts of `AppConfig` the core pipeline reads. -/
structure AppConfig where
  openRouter : OpenRouterConfig
  image : ImageConfig
deriving Repr, DecidableEq

/-- Value of `defaultConfig` in AppConfig.ts with no overriding environment
variables set (the literal fallbacks of each `process.env... || ...`). -/
def defaultConfig : AppConfig :=
  { openRouter :=
      { apiKey := ""
        baseUrl := "https://openrouter.ai/api/v1"
        defaultModel := "anthropic/claude-3.5-sonnet"
        timeout := 30000
        maxTokens := 1000
        httpReferer := "https://github.com/TheNomadInOrbit/vision-mcp-server" }
    image :=
      { maxSizeBytes := 10485760
        supportedFormats := ["jpg", "jpeg", "png", "gif", "bmp", "webp"]
        quality := 85 } }

/-- JavaScript `Error` values thrown by the pipeline.  The four domain
constructors embed the `DomainError` subclasses of DomainErrors.ts with
their raw constructor argument and (for the two wrapping kinds) the
optional `cause`; `generic` embeds any other `Error` as its `name` and
`message` (plain errors from `fs`, `fetch`, Sharp, `AbortError`, ...). -/
inductive JSError where
  | notFound (source : String) : JSError
  | invalidImage (reason : String) : JSError
  | processing (msg : String) (cause : Option JSError) : JSError
  | analysis (msg : String) (cause : Option JSError) : JSError
  | generic (name : String) (msg : String) : JSError
deriving Repr

/-- Value of `.message` on an embedded error: the `DomainError` subclasses
prepend a fixed phrase to their constructor argument (DomainErrors.ts);
a generic error's message is stored verbatim. -/
def JSError.message : JSError → String
  | .notFound s => "Image not found: " ++ s
  | .invalidImage r => "Invalid image: " ++ r
  | .processing m _ => "Image processing failed: " ++ m
  | .analysis m _ => "Vision analysis failed: " ++ m
  | .generic _ m => m

/-- Value of `.cause` on an embedded error (only the two wrapping domain
errors carry one). -/
def JSError.cause : JSError → Option JSError
  | .processing _ c => c
  | .analysis _ c => c
  | _ => none

/-- Occurrence of `sub` as a contiguous run inside `l`. -/
def hasInfix (l sub : List Char) : Bool :=
  l.tails.any (fun t => sub.isPrefixOf t)

/-- JavaScript `String.prototype.includes`: `sub` occurs as a substring of `s`. -/
def includesStr (s sub : String) : Bool :=
  hasInfix s.toList sub.toList

/-- JavaScript truthiness of an optional number: `undefined` and `0` are falsy. -/
def truthyNat : Option Nat → Bool
  | some n => n != 0
  | none => false

/-- JavaScript truthiness of an optional string: `undefined` and `""` are falsy. -/
def truthyStr : Option String → Bool
  | some s => s != ""
  | none => false

/-- JavaScript `a || b` on an optional string `a` with default `b`. -/
def jsOr (o : Option String) (d : String) : String :=
  match o with
  | some s => if s = "" then d else s
  | none => d

/-- Metadata record produced by `sharp(buffer).metadata()`: every field the
decoder may or may not surface is optional, exactly as in Sharp's API. -/
structure SharpMetadata where
  format : Option String
  width : Option Nat
  height : Option Nat
  hasAlpha : Option Bool
  space : Option String
  density : Option Nat
deriving Repr, DecidableEq

/-- A byte buffer: its length plus the result of handing it to the Sharp
decoder (`none` models `sharp(buffer).metadata()` rejecting). -/
structure Buffer where
  len : Nat
  meta : Option SharpMetadata
deriving Repr, DecidableEq

/-- Result of `await sharp(b).metadata()`: the decoded metadata, or the
error Sharp throws on unsupported input. -/
def sharpMetadata (b : Buffer) : Except JSError SharpMetadata :=
  match b.meta with
  | some m => .ok m
  | none => .error (.generic "Error" "Input buffer contains unsupported image format")

/-- Metadata object returned by `ImageProcessor.extractMetadata`: the source
builds it with `||`-defaults, so all fields except `density` are always
present. -/
structure ImageMetadata where
  width : Nat
  height : Nat
  format : String
  size : Nat
  hasAlpha : Bool
  colorSpace : String
  density : Option Nat
deriving Repr, DecidableEq

/-- `ImageProcessor.validateImage`: decode the metadata and check the
format, size and dimension policy, returning `false` (never throwing) on
any failure, including a decode failure. -/
def validateImage (cfg : AppConfig) (imageData : Buffer) : Bool :=
  match imageData.meta with
  | none => false
  | some metadata =>
    if !(truthyStr metadata.format)
        || !(cfg.image.supportedFormats.contains (metadata.format.getD "")) then false
    else if imageData.len > cfg.image.maxSizeBytes then false
    else if !(truthyNat metadata.width) || !(truthyNat metadata.height)
        || metadata.width.getD 0 < 1 || metadata.height.getD 0 < 1 then false
    else true

/-- `ImageProcessor.extractMetadata`: on a decode failure wraps Sharp's
error in an `ImageProcessingError`; otherwise fills each missing metadata
field with the `||`-fallback the source uses (`0`, `'unknown'`, `false`;
`density || undefined` stays unset, and a `0` density is also falsy). -/
def extractMetadata (imageData : Buffer) : Except JSError ImageMetadata :=
  match imageData.meta with
  | none =>
    .error (.processing "Failed to extract image metadata"
      (some (.generic "Error" "Input buffer contains unsupported image format")))
  | some metadata =>
    .ok { width := metadata.width.getD 0
          height := metadata.height.getD 0
          format := if truthyStr metadata.format then metadata.format.getD "" else "unknown"
          size := imageData.len
          hasAlpha := metadata.hasAlpha.getD false
          colorSpace := if truthyStr metadata.space then metadata.space.getD "" else "unknown"
          density := match metadata.density with
            | some d => if d = 0 then none else some d
            | none => none }

/-- The `ImageSource` object built by the loader (ImageAnalysis.ts):
provenance, the loaded bytes and the extracted metadata. -/
structure ImageSource where
  type : String
  path : Option String
  data : Option Buffer
  url : Option String
  metadata : Option ImageMetadata
deriving Repr, DecidableEq

/-- Outcome of the file-system interaction in `loadFromFile`
(`fs.access` followed by `readFileSync`): the path is missing (an ENOENT
error), some other access error is thrown, or the file's bytes are read. -/
inductive FileResult where
  | notFound : FileResult
  | accessError (msg : String) : FileResult
  | content (b : Buffer) : FileResult

/-- Outcome of `fetch(url)` in `loadFromUrl`: a non-ok HTTP status with its
status text, a transport-level rejection, or the body bytes of an ok
response. -/
inductive UrlResult where
  | httpError (status : Nat) (statusText : String) : UrlResult
  | netFail (msg : String) : UrlResult
  | ok (b : Buffer) : UrlResult

/-- `ImageProcessor.loadFromFile` with the file system passed explicitly.
The try-block raises the raw fs error, an `InvalidImageError`, or an error
from metadata extraction; the catch-block first converts any error whose message includes
"ENOENT" into an `ImageNotFoundError`, rethrows `InvalidImageError`, and
wraps everything else in an `ImageProcessingError`.  `path.resolve` is
modelled as the identity (resolution is environment-dependent and nothing
in the pipeline reads the resolved path). -/
def loadFromFile (cfg : AppConfig) (fs : String → FileResult) (filePath : String) :
    Except JSError ImageSource :=
  let attempt : Except JSError ImageSource :=
    match fs filePath with
    | .notFound =>
      .error (.generic "Error"
        ("ENOENT: no such file or directory, access " ++ filePath))
    | .accessError m => .error (.generic "Error" m)
    | .content data =>
      if !(validateImage cfg data) then
        .error (.invalidImage ("Invalid image file: " ++ filePath))
      else
        match extractMetadata data with
        | .error e => .error e
        | .ok md =>
          .ok { type := "file", path := some filePath, data := some data,
                url := none, metadata := some md }
  match attempt with
  | .ok s => .ok s
  | .error e =>
    if includesStr e.message "ENOENT" then
      .error (.notFound ("File not found: " ++ filePath))
    else
      match e with
      | .invalidImage r => .error (.invalidImage r)
      | _ => .error (.processing ("Failed to load file: " ++ filePath) (some e))

/-- `ImageProcessor.loadFromUrl` with the HTTP transport passed explicitly.
A non-ok response becomes a plain `Error("HTTP <status>: <statusText>")`
inside the try-block; the catch-block rethrows `InvalidImageError` and
wraps every other error in an `ImageProcessingError`. -/
def loadFromUrl (cfg : AppConfig) (fetchUrl : String → UrlResult) (url : String) :
    Except JSError ImageSource :=
  let attempt : Except JSError ImageSource :=
    match fetchUrl url with
    | .httpError status statusText =>
      .error (.generic "Error" ("HTTP " ++ toString status ++ ": " ++ statusText))
    | .netFail m => .error (.generic "FetchError" m)
    | .ok data =>
      if !(validateImage cfg data) then
        .error (.invalidImage ("Invalid image from URL: " ++ url))
      else
        match extractMetadata data with
        | .error e => .error e
        | .ok md =>
          .ok { type := "url", path := some url, data := some data,
                url := none, metadata := some md }
  match attempt with
  | .ok s => .ok s
  | .error e =>
    match e with
    | .invalidImage r => .error (.invalidImage r)
    | _ => .error (.processing ("Failed to load image from URL: " ++ url) (some e))

/-- `ImageProcessor.isUrl`: the source parses the string with `new URL` and
accepts only the `http:`/`https:` protocols; this is embedded as the
corresponding scheme check, written over character lists so that it
evaluates by reduction. -/
def isUrl (source : String) : Bool :=
  "http://".toList.isPrefixOf source.toList
    || "https://".toList.isPrefixOf source.toList

/-- `ImageProcessor.loadImage`: dispatch on `isUrl`, then the catch-block
rethrows `ImageNotFoundError` and `InvalidImageError` and wraps every
other error in an `ImageProcessingError`. -/
def loadImage (cfg : AppConfig) (fs : String → FileResult)
    (fetchUrl : String → UrlResult) (source : String) : Except JSError ImageSource :=
  let attempt :=
    if isUrl source then loadFromUrl cfg fetchUrl source
    else loadFromFile cfg fs source
  match attempt with
  | .ok s => .ok s
  | .error e =>
    match e with
    | .notFound r => .error (.notFound r)
    | .invalidImage r => .error (.invalidImage r)
    | _ => .error (.processing ("Failed to load image from source: " ++ source) (some e))

/-- JavaScript `Math.round (a / b)` on non-negative operands: round half
up, written with integer arithmetic.  Sharp uses this rounding for the
dimension it derives when only one resize bound is given. -/
def jsRound (a b : Nat) : Nat :=
  (2 * a + b) / (2 * b)

/-- Bytes produced by the submission pipeline of `prepareImageForAPI`:
either the raw input buffer passed through untouched, or a Sharp pipeline
output re-encoded as JPEG at the given quality with the given dimensions. -/
inductive EncBuffer where
  | raw (b : Buffer) : EncBuffer
  | jpegEnc (quality : Nat) (width : Nat) (height : Nat) : EncBuffer
deriving Repr, DecidableEq

/-- The data-URL string `prepareImageForAPI` returns, kept structured: the
fixed `data:<mime>;base64,` head and the bytes whose base64 rendering
follows it (base64 is injective, so nothing is lost by not spelling the
digits out). -/
structure DataUrl where
  head : String
  payload : EncBuffer
deriving Repr, DecidableEq

/-- Constant `MAX_DIMENSION` in `prepareImageForAPI`. -/
def MAX_DIMENSION : Nat := 1024

/-- Constant `JPEG_QUALITY` in `prepareImageForAPI`. -/
def JPEG_QUALITY : Nat := 80

/-- `OpenRouterService.prepareImageForAPI`: require the source's bytes,
decode metadata, and when both dimensions are truthy resize so the larger
dimension is capped at `MAX_DIMENSION` (Sharp derives the other dimension
by proportional rounding, floored at 1 pixel) and re-encode as JPEG at
`JPEG_QUALITY`; when a dimension is missing the raw buffer passes through.
The result is always labelled `data:image/jpeg;base64,`. -/
def prepareImageForAPI (imageSource : ImageSource) : Except JSError DataUrl :=
  match imageSource.data with
  | none => .error (.analysis "Image data is required for analysis" none)
  | some data =>
    match sharpMetadata data with
    | .error e => .error e
    | .ok metadata =>
      let resizedBuffer : EncBuffer :=
        if truthyNat metadata.width && truthyNat metadata.height then
          let w := metadata.width.getD 0
          let h := metadata.height.getD 0
          let largerDimension := max w h
          if largerDimension > MAX_DIMENSION then
            if w > h then
              .jpegEnc JPEG_QUALITY MAX_DIMENSION (max 1 (jsRound (h * MAX_DIMENSION) w))
            else
              .jpegEnc JPEG_QUALITY (max 1 (jsRound (w * MAX_DIMENSION) h)) MAX_DIMENSION
          else
            .jpegEnc JPEG_QUALITY w h
        else .raw data
      .ok { head := "data:image/jpeg;base64,", payload := resizedBuffer }

/-- Output of `ImageProcessor.optimizeImage`: the dimensions of the result
together with the encoding options the source applies per format. -/
structure OptResult where
  width : Nat
  height : Nat
  format : String
  progressive : Bool
  quality : Option Nat
  compressionLevel : Option Nat
deriving Repr, DecidableEq

/-- Sharp `resize(maxWidth, maxHeight, fit inside + withoutEnlargement)`:
scale by the smaller of the per-axis ratios, never above 1, rounding the
scaled dimensions and flooring them at 1 pixel.  A missing (or zero, which
Sharp would reject but the pipeline never produces) bound leaves that axis
unconstrained. -/
def fitInside (w h : Nat) (mW mH : Option Nat) : Nat × Nat :=
  let wOk := match mW with | some W => w ≤ W || W = 0 | none => true
  let hOk := match mH with | some H => h ≤ H || H = 0 | none => true
  if wOk && hOk then (w, h)
  else
    match mW, mH with
    | some W, none => (W, max 1 (jsRound (h * W) w))
    | none, some H => (max 1 (jsRound (w * H) h), H)
    | some W, some H =>
      if W * h ≤ H * w then (W, max 1 (jsRound (h * W) w))
      else (max 1 (jsRound (w * H) h), H)
    | none, none => (w, h)

/-- `ImageProcessor.optimizeImage`: resize only when a truthy bound is
given (fit-inside, no enlargement), then re-encode per the decoded format
(progressive JPEG at the configured quality, PNG at compression level 9,
WebP at the configured quality, anything else passed through Sharp
unchanged); a decode failure is wrapped in an `ImageProcessingError`. -/
def optimizeImage (cfg : AppConfig) (imageData : Buffer)
    (maxWidth maxHeight : Option Nat) : Except JSError OptResult :=
  match imageData.meta with
  | none =>
    .error (.processing "Failed to optimize image"
      (some (.generic "Error" "Input buffer contains unsupported image format")))
  | some metadata =>
    let w := metadata.width.getD 0
    let h := metadata.height.getD 0
    let dims :=
      if truthyNat maxWidth || truthyNat maxHeight then
        fitInside w h maxWidth maxHeight
      else (w, h)
    .ok (match metadata.format with
      | some "jpeg" =>
        { width := dims.1, height := dims.2, format := "jpeg",
          progressive := true, quality := some cfg.image.quality,
          compressionLevel := none }
      | some "png" =>
        { width := dims.1, height := dims.2, format := "png",
          progressive := true, quality := none, compressionLevel := some 9 }
      | some "webp" =>
        { width := dims.1, height := dims.2, format := "webp",
          progressive := false, quality := some cfg.image.quality,
          compressionLevel := none }
      | f =>
        { width := dims.1, height := dims.2, format := f.getD "unknown",
          progressive := false, quality := none, compressionLevel := none })

/-- Token-usage counters of an OpenRouter response. -/
structure ORUsage where
  prompt_tokens : Nat
  completion_tokens : Nat
  total_tokens : Nat
deriving Repr, DecidableEq

/-- One choice of an OpenRouter response.  The source reads it only through
`choices[0]?.message?.content`, so the whole optional chain collapses to
one optional string (`none` models a missing `message` or `content`). -/
structure ORChoice where
  content : Option String
deriving Repr, DecidableEq

/-- The JSON body of an OpenRouter response as the source consumes it
after the unchecked `as OpenRouterResponse` cast: every field may in fact
be absent at runtime, hence all fields are optional here. -/
structure ORResponse where
  id : Option String
  model : Option String
  choices : Option (List ORChoice)
  usage : Option ORUsage
deriving Repr, DecidableEq

/-- One element of the `content` array in the request body. -/
inductive ORContentPart where
  | text (t : String) : ORContentPart
  | imageUrl (url : DataUrl) : ORContentPart
deriving Repr, DecidableEq

/-- One message of the request body. -/
structure ORMessage where
  role : String
  content : List ORContentPart
deriving Repr, DecidableEq

/-- The JSON request body built in `callOpenRouterAPI`. -/
structure ORRequestBody where
  model : String
  messages : List ORMessage
  max_tokens : Nat
deriving Repr, DecidableEq

/-- The full HTTP request `callOpenRouterAPI` hands to `fetch`:
destination, method, headers, body, and the timeout after which the
`AbortController` armed by `setTimeout(() => controller.abort(), ...)`
cancels the in-flight call. -/
structure ORRequest where
  url : String
  method : String
  headers : List (String × String)
  body : ORRequestBody
  abortAfterMs : Nat
deriving Repr, DecidableEq

/-- Outcome of the `fetch` call, supplied by the environment: an ok
response whose body parses as JSON, an ok response whose `json()` rejects,
a non-ok status (with `await response.text()` as the body text), or a
rejected fetch carrying an error name and message (an abort surfaces here
as the name `AbortError`). -/
inductive FetchOutcome where
  | success (resp : ORResponse) : FetchOutcome
  | parseFail (msg : String) : FetchOutcome
  | httpError (status : Nat) (bodyText : String) : FetchOutcome
  | netError (name : String) (msg : String) : FetchOutcome
deriving Repr, DecidableEq

/-- The request value built by `callOpenRouterAPI` before calling `fetch`:
POST to `{baseUrl}/chat/completions`, the four fixed headers, the
single-user-message body with the prompt text and the image data URL, and
the hard-coded `max_tokens: 1000`. -/
def openRouterRequest (cfg : AppConfig) (base64Image : DataUrl)
    (prompt model : String) : ORRequest :=
  { url := cfg.openRouter.baseUrl ++ "/chat/completions"
    method := "POST"
    headers :=
      [("Authorization", "Bearer " ++ cfg.openRouter.apiKey),
       ("Content-Type", "application/json"),
       ("HTTP-Referer", cfg.openRouter.httpReferer),
       ("X-Title", "Vision MCP Server")]
    body :=
      { model := model
        messages := [{ role := "user",
                       content := [.text prompt, .imageUrl base64Image] }]
        max_tokens := 1000 }
    abortAfterMs := cfg.openRouter.timeout }

/-- `OpenRouterService.callOpenRouterAPI` with the transport passed
explicitly: build the request, dispatch on the fetch outcome (non-ok
status and empty/missing `choices` become plain `Error`s, a rejection
named `AbortError` becomes the timeout `Error`), and also return the
request that was issued so theorems can speak about it. -/
def callOpenRouterAPI (cfg : AppConfig) (respond : ORRequest → FetchOutcome)
    (base64Image : DataUrl) (prompt model : String) :
    ORRequest × Except JSError ORResponse :=
  let req := openRouterRequest cfg base64Image prompt model
  let outcome : Except JSError ORResponse :=
    match respond req with
    | .httpError status errorText =>
      .error (.generic "Error"
        ("OpenRouter API error (" ++ toString status ++ "): " ++ errorText))
    | .parseFail m => .error (.generic "FetchError" m)
    | .netError name m =>
      if name = "AbortError" then
        .error (.generic "Error"
          ("Request timeout after " ++ toString cfg.openRouter.timeout ++ "ms"))
      else .error (.generic name m)
    | .success data =>
      match data.choices with
      | none => .error (.generic "Error" "No choices returned from OpenRouter API")
      | some cs =>
        if cs.length = 0 then
          .error (.generic "Error" "No choices returned from OpenRouter API")
        else .ok data
  (req, outcome)

/-- The analysis result entity (ImageAnalysis.ts).  `crypto.randomUUID()`
and `new Date()` are nondeterministic, so the embedding threads the fresh
id and the clock in as parameters of the operations that invoke them. -/
structure ImageAnalysis where
  id : String
  imageSource : ImageSource
  model : String
  analysis : String
  timestamp : Nat
  metadata : Option ImageMetadata
  usage : Option ORUsage
deriving Repr, DecidableEq

/-- `ImageAnalysisEntity.create`: `id || crypto.randomUUID()` keeps a
truthy (present and non-empty) caller id, else uses the fresh id. -/
def ImageAnalysisEntity.create (freshId : String) (now : Nat)
    (imageSource : ImageSource) (model analysis : String)
    (metadata : Option ImageMetadata) (usage : Option ORUsage)
    (id : Option String) : ImageAnalysis :=
  { id := jsOr id freshId
    imageSource := imageSource
    model := model
    analysis := analysis
    timestamp := now
    metadata := metadata
    usage := usage }

/-- Fixed default prompt in `OpenRouterService.analyzeImage`. -/
def defaultPrompt : String :=
  "Analyze this image and describe what you see in detail."

/-- `OpenRouterService.analyzeImage`: select the model, prepare the image,
issue the single API call, require a truthy `choices[0]?.message?.content`
and build the entity; the catch-block rethrows `ImageAnalysisError` and
wraps every other error as
`ImageAnalysisError("OpenRouter API call failed: ...", cause)`.  The first
component collects the requests issued (none when preparation fails). -/
def analyzeImage (cfg : AppConfig) (respond : ORRequest → FetchOutcome)
    (freshId : String) (now : Nat) (imageSource : ImageSource)
    (model? prompt? : Option String) :
    List ORRequest × Except JSError ImageAnalysis :=
  let selectedModel := jsOr model? cfg.openRouter.defaultModel
  let wrap : JSError → JSError := fun e =>
    match e with
    | .analysis m c => .analysis m c
    | e => .analysis ("OpenRouter API call failed: " ++ e.message) (some e)
  match prepareImageForAPI imageSource with
  | .error e => ([], .error (wrap e))
  | .ok base64Image =>
    let analysisPrompt := jsOr prompt? defaultPrompt
    let (req, out) := callOpenRouterAPI cfg respond base64Image analysisPrompt selectedModel
    match out with
    | .error e => ([req], .error (wrap e))
    | .ok response =>
      let analysis : Option String :=
        match response.choices with
        | some (c :: _) => c.content
        | _ => none
      if truthyStr analysis then
        ([req], .ok (ImageAnalysisEntity.create freshId now imageSource
          selectedModel (analysis.getD "") none response.usage response.id))
      else
        ([req], .error (.analysis "No analysis content received from API" none))

/-- Try-block of `AnalyzeImageUseCase.execute`: load the image, check the
bytes are present, re-validate, and delegate to the analysis service. -/
def executeBody (cfg : AppConfig) (fs : String → FileResult)
    (fetchUrl : String → UrlResult) (respond : ORRequest → FetchOutcome)
    (freshId : String) (now : Nat) (source : String)
    (model? prompt? : Option String) : Except JSError ImageAnalysis :=
  match loadImage cfg fs fetchUrl source with
  | .error e => .error e
  | .ok imageSource =>
    match imageSource.data with
    | none => .error (.processing "Failed to load image data" none)
    | some data =>
      if !(validateImage cfg data) then
        .error (.processing "Invalid image format or size" none)
      else
        (analyzeImage cfg respond freshId now imageSource model? prompt?).2

/-- `AnalyzeImageUseCase.execute`: the catch-block rethrows
`ImageProcessingError` and `ImageAnalysisError` and wraps every other
error (`ImageNotFoundError` and `InvalidImageError` included, since the
`instanceof` tests do not match them) as
`ImageAnalysisError("Unexpected error during vision analysis", cause)`. -/
def execute (cfg : AppConfig) (fs : String → FileResult)
    (fetchUrl : String → UrlResult) (respond : ORRequest → FetchOutcome)
    (freshId : String) (now : Nat) (source : String)
    (model? prompt? : Option String) : Except JSError ImageAnalysis :=
  match executeBody cfg fs fetchUrl respond freshId now source model? prompt? with
  | .ok r => .ok r
  | .error e =>
    match e with
    | .processing m c => .error (.processing m c)
    | .analysis m c => .error (.analysis m c)
    | e => .error (.analysis "Unexpected error during vision analysis" (some e))

/-- The `details` object of a boundary error response: the recognized
wrapping kinds carry a `cause` key holding `error.cause?.message`, the
generic branch carries an `originalError` key holding the original
error's own message. -/
inductive ErrorDetails where
  | causeDetail (cause : Option String) : ErrorDetails
  | originalErrorDetail (originalError : String) : ErrorDetails
deriving Repr, DecidableEq

/-- The `error` object of a failed `ImageAnalysisResult` built by
`ImageAnalysisController.createErrorResponse`. -/
structure ErrorResponse where
  code : String
  message : String
  details : Option ErrorDetails
deriving Repr, DecidableEq

/-- `ImageAnalysisController.handleError`: translate each recognized
domain error to its stable code with the error's message (`cause?.message`
attached for the two wrapping kinds, nothing for the other two), and any
unrecognized error to `INTERNAL_ERROR` with a fixed message and the
original error's message under `originalError`. -/
def handleError (error : JSError) : ErrorResponse :=
  match error with
  | .notFound r =>
    { code := "IMAGE_NOT_FOUND", message := (JSError.notFound r).message,
      details := none }
  | .invalidImage r =>
    { code := "INVALID_IMAGE", message := (JSError.invalidImage r).message,
      details := none }
  | .processing m c =>
    { code := "IMAGE_PROCESSING_ERROR", message := (JSError.processing m c).message,
      details := some (.causeDetail (c.map JSError.message)) }
  | .analysis m c =>
    { code := "ANALYSIS_ERROR", message := (JSError.analysis m c).message,
      details := some (.causeDetail (c.map JSError.message)) }
  | .generic n m =>
    { code := "INTERNAL_ERROR",
      message := "An unexpected error occurred during vision analysis",
      details := some (.originalErrorDetail (JSError.generic n m).message) }

/-! Concrete fixtures used by witnesses and counterexamples: a well-formed
2000×1000 JPEG buffer, a buffer whose decoder surfaces no metadata fields,
and simple environments for the file system and the two transports. -/

/-- Sharp metadata of a 2000×1000 sRGB JPEG. -/
def mJpeg2000 : SharpMetadata :=
  { format := some "jpeg", width := some 2000, height := some 1000,
    hasAlpha := some false, space := some "srgb", density := some 72 }

/-- A 500000-byte buffer decoding to `mJpeg2000`. -/
def bJpeg2000 : Buffer := { len := 500000, meta := some mJpeg2000 }

/-- An `ImageSource` holding `bJpeg2000`, as the loader would build it. -/
def srcJpeg2000 : ImageSource :=
  { type := "file", path := some "local.jpg", data := some bJpeg2000,
    url := none, metadata := none }

/-- A buffer that decodes but whose decoder surfaces no field at all. -/
def bDegraded : Buffer :=
  { len := 3,
    meta := some { format := none, width := none, height := none,
                   hasAlpha := none, space := none, density := none } }

/-- A file system on which every path is missing. -/
def fsMissing : String → FileResult := fun _ => .notFound

/-- A transport on which every URL answers HTTP 404. -/
def fetch404 : String → UrlResult := fun _ => .httpError 404 "Not Found"

/-- A remote endpoint that refuses every connection. -/
def respondRefused : ORRequest → FetchOutcome :=
  fun _ => .netError "FetchError" "connect ECONNREFUSED"

/-! Helper lemmas shared by several claims. -/

theorem truthyStr_iff (o : Option String) :
    truthyStr o = true ↔ ∃ s, o = some s ∧ s ≠ "" := by
  cases o <;> simp [truthyStr]

theorem truthyNat_iff (o : Option Nat) :
    truthyNat o = true ↔ ∃ n, o = some n ∧ n ≠ 0 := by
  cases o <;> simp [truthyNat]

theorem jsRound_le (a b c : Nat) (hb : 0 < b) (h : a ≤ c * b) :
    jsRound a b ≤ c := by
  have h2 : 2 * a + b < (c + 1) * (2 * b) := by nlinarith
  exact Nat.lt_succ_iff.mp ((Nat.div_lt_iff_lt_mul (by omega)).mpr h2)

theorem jsRound_mul_le (a b : Nat) (hb : 0 < b) :
    jsRound a b * b ≤ a + b := by
  have h1 : (2 * a + b) / (2 * b) * (2 * b) ≤ 2 * a + b := Nat.div_mul_le_self _ _
  unfold jsRound
  nlinarith [h1]

theorem le_jsRound_mul (a b : Nat) (hb : 0 < b) :
    a ≤ jsRound a b * b + b := by
  have h1 : 2 * a + b < (2 * a + b) / (2 * b) * (2 * b) + 2 * b :=
    Nat.lt_div_mul_add (by omega)
  unfold jsRound
  nlinarith [h1]

/-- C5: `validateImage` is a total boolean check, embedded as a Lean
function into `Bool` (both the decode failure and every policy violation
return `false`; nothing escapes).  It returns `true` exactly when the
buffer decodes, the decoded format is a non-empty member of the supported
set, the byte length is at most the configured maximum and both decoded
dimensions are at least 1; the default maximum is 10485760 bytes (10 MiB)
and the default supported set contains jpeg, png, gif, bmp and webp. -/
theorem validateImage_spec (cfg : AppConfig) (b : Buffer) :
    (validateImage cfg b = true ↔
      ∃ m, b.meta = some m ∧
        (∃ f, m.format = some f ∧ f ≠ "" ∧ f ∈ cfg.image.supportedFormats) ∧
        b.len ≤ cfg.image.maxSizeBytes ∧
        (∃ w, m.width = some w ∧ 1 ≤ w) ∧
        (∃ h, m.height = some h ∧ 1 ≤ h))
    ∧ defaultConfig.image.maxSizeBytes = 10485760
    ∧ ("jpeg" ∈ defaultConfig.image.supportedFormats
        ∧ "png" ∈ defaultConfig.image.supportedFormats
        ∧ "gif" ∈ defaultConfig.image.supportedFormats
        ∧ "bmp" ∈ defaultConfig.image.supportedFormats
        ∧ "webp" ∈ defaultConfig.image.supportedFormats) := by
  refine ⟨?_, rfl, by decide⟩
  cases hb : b.meta with
  | none => simp [validateImage, hb]
  | some m =>
    simp only [validateImage, hb, Option.some.injEq]
    constructor
    · intro hv
      split_ifs at hv with h1 h2 h3
      any_goals simp at hv
      simp at h1 h3
      obtain ⟨htf, hcont⟩ := h1
      obtain ⟨f, hf, hfne⟩ := (truthyStr_iff m.format).mp htf
      obtain ⟨⟨⟨htw, hth⟩, hwge⟩, hhge⟩ := h3
      obtain ⟨w, hwv, hw0⟩ := (truthyNat_iff m.width).mp htw
      obtain ⟨h', hhv, hh0⟩ := (truthyNat_iff m.height).mp hth
      refine ⟨m, rfl, ⟨f, hf, hfne, ?_⟩, by omega, ⟨w, hwv, by omega⟩,
        ⟨h', hhv, by omega⟩⟩
      simpa [hf] using hcont
    · rintro ⟨m', hm', ⟨f, hf, hfne, hmem⟩, hlen, ⟨w, hwv, hw1⟩, ⟨h', hhv, hh1⟩⟩
      cases hm'
      have hcond1 : (!truthyStr m.format
          || !cfg.image.supportedFormats.contains (m.format.getD "")) = false := by
        simp [truthyStr, hf, hfne, hmem]
      have hcond3 : (!truthyNat m.width || !truthyNat m.height
          || decide (m.width.getD 0 < 1) || decide (m.height.getD 0 < 1)) = false := by
        simp only [hwv, hhv, truthyNat, Option.getD_some]
        simp
        omega
      have hlen2 : ¬ (b.len > cfg.image.maxSizeBytes) := by omega
      simp only [hcond1, hcond3]
      simp [hlen2]

/-- C9 counterexample: on a buffer whose decoder surfaces no metadata
field at all, `inspect` (`extractMetadata`) does not leave width, height,
format, alpha or color space unset — it fills them with the invented
sentinel values `0`, `"unknown"` and `false`; only `density` is left
unset.  This refutes the claim that any field the decoder does not
surface is left unset rather than filled with an invented value. -/
theorem extractMetadata_counterexample :
    extractMetadata bDegraded =
      .ok { width := 0, height := 0, format := "unknown", size := 3,
            hasAlpha := false, colorSpace := "unknown", density := none } := rfl

/-- C9 amended: `extractMetadata` fails with a `ProcessingFailure` when
decoding fails; otherwise it returns metadata in which every field the
decoder surfaces (with a truthy value) is passed through verbatim, but a
field the decoder does not surface is filled with a sentinel default —
`0` for width and height, `"unknown"` for format and color space, `false`
for alpha — rather than left unset; only a missing density is left
unset. -/
theorem extractMetadata_spec (b : Buffer) :
    (b.meta = none → ∃ m c, extractMetadata b = .error (.processing m c))
    ∧ (∀ m, b.meta = some m → ∃ r, extractMetadata b = .ok r
        ∧ (∀ w, m.width = some w → r.width = w)
        ∧ (m.width = none → r.width = 0)
        ∧ (∀ h, m.height = some h → r.height = h)
        ∧ (m.height = none → r.height = 0)
        ∧ (∀ f, m.format = some f → f ≠ "" → r.format = f)
        ∧ (m.format = none → r.format = "unknown")
        ∧ r.size = b.len
        ∧ (m.hasAlpha = none → r.hasAlpha = false)
        ∧ (∀ a, m.hasAlpha = some a → r.hasAlpha = a)
        ∧ (∀ s, m.space = some s → s ≠ "" → r.colorSpace = s)
        ∧ (m.space = none → r.colorSpace = "unknown")
        ∧ (m.density = none → r.density = none)
        ∧ (∀ d, m.density = some d → d ≠ 0 → r.density = some d)) := by
  constructor
  · intro hnone
    exact ⟨"Failed to extract image metadata",
      some (.generic "Error" "Input buffer contains unsupported image format"),
      by simp [extractMetadata, hnone]⟩
  · intro m hm
    refine ⟨{ width := m.width.getD 0, height := m.height.getD 0,
              format := if truthyStr m.format then m.format.getD "" else "unknown",
              size := b.len, hasAlpha := m.hasAlpha.getD false,
              colorSpace := if truthyStr m.space then m.space.getD "" else "unknown",
              density := match m.density with
                | some d => if d = 0 then none else some d
                | none => none },
      by simp [extractMetadata, hm], ?_, ?_, ?_, ?_, ?_, ?_, rfl,
      ?_, ?_, ?_, ?_, ?_, ?_⟩
    · intro w hw; simp [hw]
    · intro hw; simp [hw]
    · intro h hh; simp [hh]
    · intro hh; simp [hh]
    · intro f hf hfne; simp [truthyStr, hf, hfne]
    · intro hf; simp [truthyStr, hf]
    · intro ha; simp [ha]
    · intro a ha; simp [ha]
    · intro s hs hsne; simp [truthyStr, hs, hsne]
    · intro hs; simp [truthyStr, hs]
    · intro hd; simp [hd]
    · intro d hd hdne; simp [hd, hdne]

/-- C9 witness: the amended theorem applied to the concrete 2000×1000
JPEG buffer. -/
theorem extractMetadata_spec_witness :
    ∃ r, extractMetadata bJpeg2000 = Except.ok r
      ∧ r.width = 2000 ∧ r.format = "jpeg" ∧ r.density = some 72 := by
  obtain ⟨r, hr, c1, _, _, _, c5, _, _, _, _, _, _, _, c13⟩ :=
    (extractMetadata_spec bJpeg2000).2 mJpeg2000 rfl
  exact ⟨r, hr, c1 2000 rfl, c5 "jpeg" rfl (by decide), c13 72 rfl (by decide)⟩

/-- C5 witness: the characterization applied to the concrete 2000×1000
JPEG buffer. -/
theorem validateImage_spec_witness :
    validateImage defaultConfig bJpeg2000 = true :=
  ((validateImage_spec defaultConfig bJpeg2000).1).mpr
    ⟨mJpeg2000, rfl, ⟨"jpeg", rfl, by decide, by decide⟩, by decide,
      ⟨2000, rfl, by decide⟩, ⟨1000, rfl, by decide⟩⟩

theorem includesStr_of_isPrefix (t sub : String) (h : sub.toList <+: t.toList) :
    includesStr t sub = true := by
  unfold includesStr hasInfix
  rw [List.any_eq_true]
  exact ⟨t.toList, by simp [List.mem_tails], List.isPrefixOf_iff_prefix.mpr h⟩

theorem includes_ENOENT (p : String) :
    includesStr ("ENOENT: no such file or directory, access " ++ p) "ENOENT" = true := by
  apply includesStr_of_isPrefix
  rw [show ("ENOENT: no such file or directory, access " ++ p).toList
      = "ENOENT: no such file or directory, access ".toList ++ p.toList from by
    simp [String.toList]]
  exact List.IsPrefix.trans (by decide) (List.prefix_append _ _)

/-- C2 counterexample: with a transport answering HTTP 404, loading a URL
fails with a `ProcessingFailure` (wrapping the raw `HTTP 404` error), not
with `NotFound` as the claim states. -/
theorem loadImage_url404_counterexample :
    loadImage defaultConfig fsMissing fetch404 "https://host/x.png" =
      .error (.processing "Failed to load image from source: https://host/x.png"
        (some (.processing "Failed to load image from URL: https://host/x.png"
          (some (.generic "Error" "HTTP 404: Not Found"))))) := rfl

/-- C2 amended: `loadImage` fails with `NotFound` when a local file path
does not resolve; with `Invalid` when loaded bytes (from a file or a URL)
do not pass validation; and with `ProcessingFailure` for any other I/O
error — including a remote fetch returning a non-success HTTP status,
which is wrapped as a `ProcessingFailure`, not mapped to `NotFound`. -/
theorem load_error_mapping (cfg : AppConfig) (fs : String → FileResult)
    (fetchUrl : String → UrlResult) (p u : String)
    (hp : isUrl p = false) (hu : isUrl u = true) :
    (fs p = .notFound →
      loadImage cfg fs fetchUrl p = .error (.notFound ("File not found: " ++ p)))
    ∧ (∀ b, fs p = .content b → validateImage cfg b = false →
        includesStr (JSError.invalidImage ("Invalid image file: " ++ p)).message
          "ENOENT" = false →
        loadImage cfg fs fetchUrl p =
          .error (.invalidImage ("Invalid image file: " ++ p)))
    ∧ (∀ m, fs p = .accessError m → includesStr m "ENOENT" = false →
        loadImage cfg fs fetchUrl p =
          .error (.processing ("Failed to load image from source: " ++ p)
            (some (.processing ("Failed to load file: " ++ p)
              (some (.generic "Error" m))))))
    ∧ (∀ s t, fetchUrl u = .httpError s t →
        loadImage cfg fs fetchUrl u =
          .error (.processing ("Failed to load image from source: " ++ u)
            (some (.processing ("Failed to load image from URL: " ++ u)
              (some (.generic "Error" ("HTTP " ++ toString s ++ ": " ++ t)))))))
    ∧ (∀ b, fetchUrl u = .ok b → validateImage cfg b = false →
        loadImage cfg fs fetchUrl u =
          .error (.invalidImage ("Invalid image from URL: " ++ u)))
    ∧ (∀ m, fetchUrl u = .netFail m →
        loadImage cfg fs fetchUrl u =
          .error (.processing ("Failed to load image from source: " ++ u)
            (some (.processing ("Failed to load image from URL: " ++ u)
              (some (.generic "FetchError" m)))))) := by
  refine ⟨?_, ?_, ?_, ?_, ?_, ?_⟩
  · intro h
    unfold loadImage loadFromFile
    rw [hp, h]
    simp [JSError.message, includes_ENOENT p]
  · intro b hb hval hnoe
    unfold loadImage loadFromFile
    rw [hp, hb]
    simp [hval, hnoe]
  · intro m hm hnoe
    unfold loadImage loadFromFile
    rw [hp, hm]
    simp [JSError.message, hnoe]
  · intro s t h
    unfold loadImage loadFromUrl
    rw [hu, h]
    simp
  · intro b hb hval
    unfold loadImage loadFromUrl
    rw [hu, hb]
    simp [hval]
  · intro m hm
    unfold loadImage loadFromUrl
    rw [hu, hm]
    simp

/-- C2 witness: the amended mapping applied to a missing local file and to
an invalid remote payload. -/
theorem load_error_mapping_witness :
    loadImage defaultConfig fsMissing fetch404 "missing.jpg" =
      .error (.notFound "File not found: missing.jpg")
    ∧ loadImage defaultConfig (fun _ => .content bDegraded)
        (fun _ => .ok bDegraded) "https://host/x.png" =
      .error (.invalidImage "Invalid image from URL: https://host/x.png") := by
  constructor
  · exact (load_error_mapping defaultConfig fsMissing fetch404
      "missing.jpg" "https://host/x.png" (by decide) (by decide)).1 rfl
  · exact ((load_error_mapping defaultConfig (fun _ => .content bDegraded)
      (fun _ => .ok bDegraded) "missing.jpg" "https://host/x.png"
      (by decide) (by decide)).2.2.2.2.1) bDegraded rfl (by decide)

/-- C1 counterexample: when the Loader fails with `NotFound`, `execute`
does not propagate that failure unchanged — the catch-block recognizes
only `ImageProcessingError` and `ImageAnalysisError`, so the
`ImageNotFoundError` is wrapped into the generic `AnalysisFailure`. -/
theorem execute_notFound_counterexample :
    execute defaultConfig fsMissing fetch404 respondRefused "uuid-1" 0
        "missing.jpg" none none =
      .error (.analysis "Unexpected error during vision analysis"
        (some (.notFound "File not found: missing.jpg")))
    ∧ execute defaultConfig fsMissing fetch404 respondRefused "uuid-1" 0
        "missing.jpg" none none ≠
      .error (.notFound "File not found: missing.jpg") := by
  have hc : execute defaultConfig fsMissing fetch404 respondRefused "uuid-1" 0
      "missing.jpg" none none =
      .error (.analysis "Unexpected error during vision analysis"
        (some (.notFound "File not found: missing.jpg"))) := rfl
  exact ⟨hc, by rw [hc]; simp⟩

/-- C1 amended: `execute` propagates `ProcessingFailure` and
`AnalysisFailure` unchanged; every other failure — `NotFound` and
`Invalid` included — is wrapped into the generic `AnalysisFailure`
carrying the original failure as cause, so `execute` only ever fails with
`ProcessingFailure` or `AnalysisFailure`. -/
theorem execute_failure_classification (cfg : AppConfig) (fs : String → FileResult)
    (fetchUrl : String → UrlResult) (respond : ORRequest → FetchOutcome)
    (freshId : String) (now : Nat) (source : String)
    (model? prompt? : Option String) :
    (∀ e, execute cfg fs fetchUrl respond freshId now source model? prompt?
        = .error e →
      (∃ m c, e = JSError.processing m c) ∨ (∃ m c, e = JSError.analysis m c))
    ∧ (∀ m c, executeBody cfg fs fetchUrl respond freshId now source model? prompt?
          = .error (JSError.processing m c) →
        execute cfg fs fetchUrl respond freshId now source model? prompt?
          = .error (JSError.processing m c))
    ∧ (∀ m c, executeBody cfg fs fetchUrl respond freshId now source model? prompt?
          = .error (JSError.analysis m c) →
        execute cfg fs fetchUrl respond freshId now source model? prompt?
          = .error (JSError.analysis m c))
    ∧ (∀ e, executeBody cfg fs fetchUrl respond freshId now source model? prompt?
          = .error e →
        (∀ m c, e ≠ JSError.processing m c) → (∀ m c, e ≠ JSError.analysis m c) →
        execute cfg fs fetchUrl respond freshId now source model? prompt?
          = .error (JSError.analysis "Unexpected error during vision analysis"
              (some e))) := by
  refine ⟨?_, ?_, ?_, ?_⟩
  · intro e he
    unfold execute at he
    cases hbody : executeBody cfg fs fetchUrl respond freshId now source model? prompt? with
    | ok r => rw [hbody] at he; simp at he
    | error e' =>
      rw [hbody] at he
      cases e' with
      | notFound r => simp at he; exact Or.inr ⟨_, _, he.symm⟩
      | invalidImage r => simp at he; exact Or.inr ⟨_, _, he.symm⟩
      | generic n m => simp at he; exact Or.inr ⟨_, _, he.symm⟩
      | processing m c => simp at he; exact Or.inl ⟨m, c, he.symm⟩
      | analysis m c => simp at he; exact Or.inr ⟨m, c, he.symm⟩
  · intro m c hbody
    unfold execute
    rw [hbody]
  · intro m c hbody
    unfold execute
    rw [hbody]
  · intro e hbody hnp hna
    unfold execute
    rw [hbody]
    cases e with
    | processing m c => exact absurd rfl (hnp m c)
    | analysis m c => exact absurd rfl (hna m c)
    | notFound r => rfl
    | invalidImage r => rfl
    | generic n m => rfl

/-- C1 witness: the amended classification applied to a concrete run in
which the loader reports a missing file. -/
theorem execute_failure_classification_witness :
    execute defaultConfig fsMissing fetch404 respondRefused "uuid-1" 0
        "img.png" none none =
      .error (.analysis "Unexpected error during vision analysis"
        (some (.notFound "File not found: img.png"))) :=
  (execute_failure_classification defaultConfig fsMissing fetch404 respondRefused
      "uuid-1" 0 "img.png" none none).2.2.2
    (JSError.notFound "File not found: img.png") rfl
    (fun _ _ h => by simp at h) (fun _ _ h => by simp at h)

/-- C10: when the decoded image already fits inside the given bounds (and
also when no truthy bound is given at all), `optimizeImage` never
enlarges it — the result keeps exactly the input width and height, only
format-appropriate recompression being applied. -/
theorem optimizeImage_no_upscale (cfg : AppConfig) (b : Buffer) (m : SharpMetadata)
    (w h : Nat) (mW mH : Option Nat) (hb : b.meta = some m)
    (hw : m.width = some w) (hh : m.height = some h)
    (hW : ∀ W, mW = some W → w ≤ W) (hH : ∀ H, mH = some H → h ≤ H) :
    ∃ r, optimizeImage cfg b mW mH = .ok r ∧ r.width = w ∧ r.height = h := by
  have hfit : fitInside w h mW mH = (w, h) := by
    rcases mW with _ | W
    · rcases mH with _ | H
      · simp [fitInside]
      · simp [fitInside, hH H rfl]
    · rcases mH with _ | H
      · simp [fitInside, hW W rfl]
      · simp [fitInside, hW W rfl, hH H rfl]
  unfold optimizeImage
  rw [hb]
  simp only [hw, hh, Option.getD_some]
  by_cases hcond : (truthyNat mW || truthyNat mH) = true
  · rw [if_pos hcond, hfit]
    refine ⟨_, rfl, ?_, ?_⟩ <;> (split <;> rfl)
  · rw [if_neg hcond]
    refine ⟨_, rfl, ?_, ?_⟩ <;> (split <;> rfl)

/-- C10 witness: a 2000×1000 image with bounds 3000×3000 keeps its
dimensions. -/
theorem optimizeImage_no_upscale_witness :
    ∃ r, optimizeImage defaultConfig bJpeg2000 (some 3000) (some 3000) = .ok r
      ∧ r.width = 2000 ∧ r.height = 1000 :=
  optimizeImage_no_upscale defaultConfig bJpeg2000 mJpeg2000 2000 1000
    (some 3000) (some 3000) rfl rfl rfl
    (fun W hWeq => by cases hWeq; decide) (fun H hHeq => by cases hHeq; decide)

theorem scaled_side_bounds (a b : Nat) (hb : 0 < b) :
    max 1 (jsRound a b) * b ≤ a + b ∧ a ≤ max 1 (jsRound a b) * b + b := by
  rcases Nat.eq_zero_or_pos (jsRound a b) with h0 | hpos
  · have hz : 2 * a + b < 2 * b := by
      have h1 := h0
      unfold jsRound at h1
      exact (Nat.div_eq_zero_iff (by omega)).mp h1
    rw [h0, show max 1 0 = 1 from rfl, one_mul]
    exact ⟨by omega, by omega⟩
  · have h1 : max 1 (jsRound a b) = jsRound a b := by omega
    rw [h1]
    exact ⟨jsRound_mul_le a b hb, le_jsRound_mul a b hb⟩

/-- C4: preparing an image for submission always yields a
`data:image/jpeg;base64,` payload re-encoded as JPEG at quality 80; when
the longer side is at most 1024 both dimensions are unchanged, and when
it exceeds 1024 the longer side of the output is exactly 1024 while the
shorter side is the proportional value within ±1 pixel (the bounds state
`|shorter·longIn − shortIn·1024| ≤ longIn`, i.e. at most one pixel after
dividing by the input's longer side). -/
theorem prepareImage_normalization (src : ImageSource) (b : Buffer) (m : SharpMetadata)
    (w h : Nat) (hd : src.data = some b) (hm : b.meta = some m)
    (hw : m.width = some w) (hh : m.height = some h) (hw1 : 1 ≤ w) (hh1 : 1 ≤ h) :
    ∃ w2 h2, prepareImageForAPI src =
        .ok { head := "data:image/jpeg;base64,", payload := .jpegEnc 80 w2 h2 }
      ∧ (max w h ≤ 1024 → w2 = w ∧ h2 = h)
      ∧ (1024 < max w h →
          max w2 h2 = 1024
          ∧ min w2 h2 * max w h ≤ min w h * 1024 + max w h
          ∧ min w h * 1024 ≤ min w2 h2 * max w h + max w h) := by
  have hwt : truthyNat m.width = true := by
    simp [truthyNat, hw]
    omega
  have hht : truthyNat m.height = true := by
    simp [truthyNat, hh]
    omega
  unfold prepareImageForAPI sharpMetadata
  rw [hd]
  simp only [hm, hw, hh, hwt, hht, Option.getD_some, Bool.and_self,
    MAX_DIMENSION, JPEG_QUALITY]
  have hwt2 : truthyNat (some w) = true := by
    simp [truthyNat]
    omega
  have hht2 : truthyNat (some h) = true := by
    simp [truthyNat]
    omega
  by_cases hbig : max w h > 1024
  · by_cases hwh : w > h
    · refine ⟨1024, max 1 (jsRound (h * 1024) w), ?_, ?_, ?_⟩
      · simp [hbig, hwh, hwt2, hht2]
      · intro hle; omega
      · intro _
        have hb0 : 0 < w := by omega
        have hle : max 1 (jsRound (h * 1024) w) ≤ 1024 := by
          have := jsRound_le (h * 1024) w 1024 hb0 (by nlinarith)
          omega
        obtain ⟨hub, hlb⟩ := scaled_side_bounds (h * 1024) w hb0
        refine ⟨by omega, ?_, ?_⟩
        · rw [show max w h = w from by omega, show min w h = h from by omega,
            show min 1024 (max 1 (jsRound (h * 1024) w))
              = max 1 (jsRound (h * 1024) w) from by omega]
          exact hub
        · rw [show max w h = w from by omega, show min w h = h from by omega,
            show min 1024 (max 1 (jsRound (h * 1024) w))
              = max 1 (jsRound (h * 1024) w) from by omega]
          exact hlb
    · refine ⟨max 1 (jsRound (w * 1024) h), 1024, ?_, ?_, ?_⟩
      · simp [hbig, hwh, hwt2, hht2]
      · intro hle; omega
      · intro _
        have hb0 : 0 < h := by omega
        have hle : max 1 (jsRound (w * 1024) h) ≤ 1024 := by
          have := jsRound_le (w * 1024) h 1024 hb0 (by nlinarith)
          omega
        obtain ⟨hub, hlb⟩ := scaled_side_bounds (w * 1024) h hb0
        refine ⟨by omega, ?_, ?_⟩
        · rw [show max w h = h from by omega, show min w h = w from by omega,
            show min (max 1 (jsRound (w * 1024) h)) 1024
              = max 1 (jsRound (w * 1024) h) from by omega]
          exact hub
        · rw [show max w h = h from by omega, show min w h = w from by omega,
            show min (max 1 (jsRound (w * 1024) h)) 1024
              = max 1 (jsRound (w * 1024) h) from by omega]
          exact hlb
  · refine ⟨w, h, ?_, fun _ => ⟨rfl, rfl⟩, ?_⟩
    · simp [hbig, hwt2, hht2]
    · intro hgt; omega

/-- C4 witness: the 2000×1000 JPEG is resized to exactly 1024×512 and
re-encoded as JPEG at quality 80 behind the fixed data-URL head. -/
theorem prepareImage_normalization_witness :
    prepareImageForAPI srcJpeg2000 =
      .ok { head := "data:image/jpeg;base64,", payload := .jpegEnc 80 1024 512 }
    ∧ 1024 < max 2000 1000 := by
  obtain ⟨w2, h2, heq, hsmall, hbig⟩ := prepareImage_normalization srcJpeg2000
    bJpeg2000 mJpeg2000 2000 1000 rfl rfl rfl rfl (by decide) (by decide)
  exact ⟨rfl, by decide⟩

theorem analyzeImage_requests_eq (cfg : AppConfig) (respond : ORRequest → FetchOutcome)
    (freshId : String) (now : Nat) (src : ImageSource)
    (model? prompt? : Option String) (d : DataUrl)
    (hprep : prepareImageForAPI src = .ok d) :
    (analyzeImage cfg respond freshId now src model? prompt?).1 =
      [openRouterRequest cfg d (jsOr prompt? defaultPrompt)
        (jsOr model? cfg.openRouter.defaultModel)] := by
  unfold analyzeImage callOpenRouterAPI
  simp only [hprep]
  split <;> first
    | rfl
    | (split <;> rfl)

/-- C6: for an analyze invocation whose image preparation succeeds,
exactly one HTTP request is issued: a POST to `{baseUrl}/chat/completions`
carrying the bearer credential, JSON content type, the referer identifier
and the client-title identifier, whose body holds the selected model
(the explicit argument if truthy, else the configured default), a single
user message with the prompt text (the explicit argument if truthy, else
the fixed default prompt) and the image data URL, and the fixed
`max_tokens` of 1000. -/
theorem analyzeImage_request (cfg : AppConfig) (respond : ORRequest → FetchOutcome)
    (freshId : String) (now : Nat) (src : ImageSource)
    (model? prompt? : Option String) (d : DataUrl)
    (hprep : prepareImageForAPI src = .ok d) :
    (analyzeImage cfg respond freshId now src model? prompt?).1 =
      [{ url := cfg.openRouter.baseUrl ++ "/chat/completions"
         method := "POST"
         headers := [("Authorization", "Bearer " ++ cfg.openRouter.apiKey),
                     ("Content-Type", "application/json"),
                     ("HTTP-Referer", cfg.openRouter.httpReferer),
                     ("X-Title", "Vision MCP Server")]
         body := { model := jsOr model? cfg.openRouter.defaultModel
                   messages := [{ role := "user",
                                  content := [.text (jsOr prompt? defaultPrompt),
                                              .imageUrl d] }]
                   max_tokens := 1000 }
         abortAfterMs := cfg.openRouter.timeout }]
    ∧ defaultPrompt = "Analyze this image and describe what you see in detail." := by
  refine ⟨?_, rfl⟩
  rw [analyzeImage_requests_eq cfg respond freshId now src model? prompt? d hprep]
  rfl

/-- C6 witness: the concrete request issued for the 2000×1000 JPEG under
the default configuration with no explicit model or prompt. -/
theorem analyzeImage_request_witness :
    (analyzeImage defaultConfig respondRefused "uuid-1" 0 srcJpeg2000 none none).1 =
      [{ url := "https://openrouter.ai/api/v1/chat/completions"
         method := "POST"
         headers := [("Authorization", "Bearer "),
                     ("Content-Type", "application/json"),
                     ("HTTP-Referer", "https://github.com/TheNomadInOrbit/vision-mcp-server"),
                     ("X-Title", "Vision MCP Server")]
         body := { model := "anthropic/claude-3.5-sonnet"
                   messages := [{ role := "user",
                                  content := [.text "Analyze this image and describe what you see in detail.",
                                              .imageUrl ⟨"data:image/jpeg;base64,",
                                                .jpegEnc 80 1024 512⟩] }]
                   max_tokens := 1000 }
         abortAfterMs := 30000 }] :=
  (analyzeImage_request defaultConfig respondRefused "uuid-1" 0 srcJpeg2000
    none none ⟨"data:image/jpeg;base64,", .jpegEnc 80 1024 512⟩ rfl).1

/-- C7: on a successful analyze invocation the result's `analysis` is the
first choice's message content and is non-empty; the result's usage
counters are the remote usage counters verbatim; the model is the
selected one, equal to the configured default when no model argument was
passed; the id is the remote-assigned id when present (and non-empty),
and the freshly generated id when the remote response has none. -/
theorem analyzeImage_success (cfg : AppConfig) (respond : ORRequest → FetchOutcome)
    (freshId : String) (now : Nat) (src : ImageSource)
    (model? prompt? : Option String) (d : DataUrl) (r : ORResponse)
    (c : ORChoice) (rest : List ORChoice) (a : String)
    (hprep : prepareImageForAPI src = .ok d)
    (hresp : respond (openRouterRequest cfg d (jsOr prompt? defaultPrompt)
        (jsOr model? cfg.openRouter.defaultModel)) = .success r)
    (hch : r.choices = some (c :: rest)) (hc : c.content = some a) (ha : a ≠ "") :
    ∃ res, (analyzeImage cfg respond freshId now src model? prompt?).2 = .ok res
      ∧ res.analysis = a ∧ res.analysis ≠ ""
      ∧ res.usage = r.usage
      ∧ res.model = jsOr model? cfg.openRouter.defaultModel
      ∧ (model? = none → res.model = cfg.openRouter.defaultModel)
      ∧ (∀ i, r.id = some i → i ≠ "" → res.id = i)
      ∧ (r.id = none → res.id = freshId) := by
  have hts : truthyStr (some a) = true := by simp [truthyStr, ha]
  unfold analyzeImage callOpenRouterAPI
  simp only [hprep, hresp]
  rw [hch]
  simp only [hc, hts, if_true, Option.getD_some]
  refine ⟨ImageAnalysisEntity.create freshId now src
      (jsOr model? cfg.openRouter.defaultModel) a none r.usage r.id,
    ?_, rfl, ha, rfl, rfl, ?_, ?_, ?_⟩
  · simp
    rw [hch]
    simp [hc, truthyStr, ha]
  · intro h
    simp [ImageAnalysisEntity.create, jsOr, h]
  · intro i hi hine
    simp [ImageAnalysisEntity.create, jsOr, hi, hine]
  · intro hnone
    simp [ImageAnalysisEntity.create, jsOr, hnone]

/-- C7 witness: a successful run mapping a one-choice response through to
the result entity. -/
theorem analyzeImage_success_witness :
    ∃ res, (analyzeImage defaultConfig
        (fun _ => .success { id := some "gen-1", model := some "anthropic/claude-3.5-sonnet",
                             choices := some [{ content := some "A photo." }],
                             usage := some ⟨10, 20, 30⟩ })
        "uuid-1" 7 srcJpeg2000 none none).2 = .ok res
      ∧ res.analysis = "A photo."
      ∧ res.model = "anthropic/claude-3.5-sonnet"
      ∧ res.id = "gen-1"
      ∧ res.usage = some ⟨10, 20, 30⟩ := by
  obtain ⟨res, hok, ha, _, hu, _, hmd, hid, _⟩ := analyzeImage_success defaultConfig
    (fun _ => .success { id := some "gen-1", model := some "anthropic/claude-3.5-sonnet",
                         choices := some [{ content := some "A photo." }],
                         usage := some ⟨10, 20, 30⟩ })
    "uuid-1" 7 srcJpeg2000 none none
    ⟨"data:image/jpeg;base64,", .jpegEnc 80 1024 512⟩
    { id := some "gen-1", model := some "anthropic/claude-3.5-sonnet",
      choices := some [{ content := some "A photo." }], usage := some ⟨10, 20, 30⟩ }
    { content := some "A photo." } [] "A photo."
    rfl rfl rfl rfl (by decide)
  exact ⟨res, hok, ha, hmd rfl, hid "gen-1" rfl (by decide), hu⟩

/-- C3: every failure mode of the remote call surfaces as an
`AnalysisFailure`: a non-success HTTP status, an unparseable response
body, zero choices (absent or empty array), and empty or absent
first-choice content; a timeout — the fetch rejecting with `AbortError`,
the abort signal being armed at the configured timeout (30000 ms by
default), so the in-flight request is actively canceled — yields an
`AnalysisFailure` whose message carries "Request timeout after
<timeout>ms". -/
theorem analyzeImage_failure_modes (cfg : AppConfig) (respond : ORRequest → FetchOutcome)
    (freshId : String) (now : Nat) (src : ImageSource)
    (model? prompt? : Option String) (d : DataUrl)
    (hprep : prepareImageForAPI src = .ok d) :
    (openRouterRequest cfg d (jsOr prompt? defaultPrompt)
        (jsOr model? cfg.openRouter.defaultModel)).abortAfterMs
      = cfg.openRouter.timeout
    ∧ defaultConfig.openRouter.timeout = 30000
    ∧ (∀ s t, respond (openRouterRequest cfg d (jsOr prompt? defaultPrompt)
          (jsOr model? cfg.openRouter.defaultModel)) = .httpError s t →
        (analyzeImage cfg respond freshId now src model? prompt?).2 =
          .error (.analysis
            ("OpenRouter API call failed: "
              ++ ("OpenRouter API error (" ++ toString s ++ "): " ++ t))
            (some (.generic "Error"
              ("OpenRouter API error (" ++ toString s ++ "): " ++ t)))))
    ∧ (∀ msg, respond (openRouterRequest cfg d (jsOr prompt? defaultPrompt)
          (jsOr model? cfg.openRouter.defaultModel)) = .parseFail msg →
        (analyzeImage cfg respond freshId now src model? prompt?).2 =
          .error (.analysis ("OpenRouter API call failed: " ++ msg)
            (some (.generic "FetchError" msg))))
    ∧ (∀ r, respond (openRouterRequest cfg d (jsOr prompt? defaultPrompt)
          (jsOr model? cfg.openRouter.defaultModel)) = .success r →
        r.choices = none →
        (analyzeImage cfg respond freshId now src model? prompt?).2 =
          .error (.analysis
            "OpenRouter API call failed: No choices returned from OpenRouter API"
            (some (.generic "Error" "No choices returned from OpenRouter API"))))
    ∧ (∀ r, respond (openRouterRequest cfg d (jsOr prompt? defaultPrompt)
          (jsOr model? cfg.openRouter.defaultModel)) = .success r →
        r.choices = some [] →
        (analyzeImage cfg respond freshId now src model? prompt?).2 =
          .error (.analysis
            "OpenRouter API call failed: No choices returned from OpenRouter API"
            (some (.generic "Error" "No choices returned from OpenRouter API"))))
    ∧ (∀ r c rest, respond (openRouterRequest cfg d (jsOr prompt? defaultPrompt)
          (jsOr model? cfg.openRouter.defaultModel)) = .success r →
        r.choices = some (c :: rest) → (c.content = none ∨ c.content = some "") →
        (analyzeImage cfg respond freshId now src model? prompt?).2 =
          .error (.analysis "No analysis content received from API" none))
    ∧ (∀ msg, respond (openRouterRequest cfg d (jsOr prompt? defaultPrompt)
          (jsOr model? cfg.openRouter.defaultModel)) = .netError "AbortError" msg →
        (analyzeImage cfg respond freshId now src model? prompt?).2 =
          .error (.analysis
            ("OpenRouter API call failed: "
              ++ ("Request timeout after " ++ toString cfg.openRouter.timeout ++ "ms"))
            (some (.generic "Error"
              ("Request timeout after " ++ toString cfg.openRouter.timeout ++ "ms"))))) := by
  refine ⟨rfl, rfl, ?_, ?_, ?_, ?_, ?_, ?_⟩
  · intro s t h
    unfold analyzeImage callOpenRouterAPI
    simp only [hprep, h]
    rfl
  · intro msg h
    unfold analyzeImage callOpenRouterAPI
    simp only [hprep, h]
    rfl
  · intro r h hch
    unfold analyzeImage callOpenRouterAPI
    simp only [hprep, h, hch]
    rfl
  · intro r h hch
    unfold analyzeImage callOpenRouterAPI
    simp only [hprep, h, hch]
    rfl
  · intro r c rest h hch hcont
    unfold analyzeImage callOpenRouterAPI
    rcases hcont with hcont | hcont <;>
      simp [hprep, h, hch, hcont, truthyStr]
  · intro msg h
    unfold analyzeImage callOpenRouterAPI
    simp only [hprep, h]
    simp [JSError.message]

/-- C3 witness: a 500 response surfaces as the wrapped `AnalysisFailure`. -/
theorem analyzeImage_failure_modes_witness :
    (analyzeImage defaultConfig (fun _ => .httpError 500 "oops") "uuid-1" 0
        srcJpeg2000 none none).2 =
      .error (.analysis
        ("OpenRouter API call failed: "
          ++ ("OpenRouter API error (" ++ toString 500 ++ "): " ++ "oops"))
        (some (.generic "Error"
          ("OpenRouter API error (" ++ toString 500 ++ "): " ++ "oops")))) :=
  (analyzeImage_failure_modes defaultConfig (fun _ => .httpError 500 "oops")
    "uuid-1" 0 srcJpeg2000 none none
    ⟨"data:image/jpeg;base64,", .jpegEnc 80 1024 512⟩ rfl).2.2.1 500 "oops" rfl

/-- C8 counterexample: an unrecognized failure (a plain `TypeError`) is
mapped to the stable `INTERNAL_ERROR` code, but the response's details
forward the original exception's own message in an `originalError` field
— internal exception text beyond the optional cause-message field the
claim allows. -/
theorem handleError_counterexample :
    handleError (.generic "TypeError" "boom") =
      { code := "INTERNAL_ERROR"
        message := "An unexpected error occurred during vision analysis"
        details := some (.originalErrorDetail "boom") } := rfl

/-- C8 amended: each recognized failure kind maps to its stable code and
its own human-readable message, with no diagnostic beyond the optional
cause message (and none at all for `NotFound` and `Invalid`); an
unrecognized failure maps to `INTERNAL_ERROR` with a fixed message but
forwards the original error's message in an `originalError` detail
field.  No branch emits a stack trace — the response shape has no such
field. -/
theorem handleError_classification (e : JSError) :
    (∀ r, e = JSError.notFound r →
      handleError e = ⟨"IMAGE_NOT_FOUND", e.message, none⟩)
    ∧ (∀ r, e = JSError.invalidImage r →
      handleError e = ⟨"INVALID_IMAGE", e.message, none⟩)
    ∧ (∀ m c, e = JSError.processing m c →
      handleError e = ⟨"IMAGE_PROCESSING_ERROR", e.message,
        some (.causeDetail (c.map JSError.message))⟩)
    ∧ (∀ m c, e = JSError.analysis m c →
      handleError e = ⟨"ANALYSIS_ERROR", e.message,
        some (.causeDetail (c.map JSError.message))⟩)
    ∧ (∀ n m, e = JSError.generic n m →
      handleError e = ⟨"INTERNAL_ERROR",
        "An unexpected error occurred during vision analysis",
        some (.originalErrorDetail m)⟩) :=
  ⟨fun _ h => by subst h; rfl,
   fun _ h => by subst h; rfl,
   fun _ _ h => by subst h; rfl,
   fun _ _ h => by subst h; rfl,
   fun _ _ h => by subst h; rfl⟩

/-- C8 witness: the translation of a concrete `ProcessingFailure`
carrying a cause. -/
theorem handleError_classification_witness :
    handleError (.processing "Failed to optimize image"
        (some (.generic "Error" "Input buffer contains unsupported image format"))) =
      ⟨"IMAGE_PROCESSING_ERROR",
       "Image processing failed: Failed to optimize image",
       some (.causeDetail (some "Input buffer contains unsupported image format"))⟩ :=
  (handleError_classification (.processing "Failed to optimize image"
      (some (.generic "Error" "Input buffer contains unsupported image format")))).2.2.1
    "Failed to optimize image"
    (some (.generic "Error" "Input buffer contains unsupported image format")) rfl

end Vision
